import Mathlib

/-!
Shallow embedding of the resource pool of grafiska (src/src/pool.rs), a
handle-based resource manager for a graphics API abstraction, together with
the handle helpers its crate-level documentation describes.

Modelling conventions:
* Rust u32/usize values are Nat; no arithmetic here can overflow u32
  (indices are bounded by MAX_POOL_SIZE + 1), so no wraparound is modelled
  except where the u32 width is part of a stated formula.
* A Rust function that can panic is embedded as an Option-returning
  function, with none the panic outcome: Pool::new models its two asserts,
  and unchecked Vec indexing (resources[i]) yields none when i is out of
  bounds.
* VecDeque is a list whose head is the front; pop_front takes the head and
  push_back appends.
* debug_assert_eq! in Pool::destroy is compiled out of release builds and
  is elided here; destroy models the release semantics.
-/

namespace Grafiska

/-- Constant SLOT_SHIFT from pool.rs. -/
def SLOT_SHIFT : Nat := 16

/-- Constant SLOT_MASK from pool.rs, (1 << SLOT_SHIFT) - 1. -/
def SLOT_MASK : Nat := (1 <<< SLOT_SHIFT) - 1

/-- Constant MAX_POOL_SIZE from pool.rs, 1 << SLOT_SHIFT. -/
def MAX_POOL_SIZE : Nat := 1 <<< SLOT_SHIFT

/-- Modelled from the spec: the resource-handle wrapper types of lib.rs
(Buffer, Image, Shader, Pipeline, Pass) are structurally identical wrappers
around a 32-bit id; the ResourceHandle trait whose methods pool.rs uses is
declared outside the provided sources. One nominal wrapper stands for all of
them here. -/
structure Handle where
  id : Nat
deriving DecidableEq

/-- Modelled from the spec: the ResourceHandle trait constructor R::with used
by Pool::alloc; it wraps the given 32-bit value as the handle id (alloc passes
the popped free-list index, and destroy/lookup read the very same value back
via handle.id()). -/
def Handle.with' (i : Nat) : Handle := ⟨i⟩

/-- The pool of pool.rs: a slot table of optional payloads, a FIFO free
queue of slot indices, and a (never consulted) unique counter. -/
structure Pool (α : Type) where
  resources : List (Option α)
  free_queue : List Nat
  unique_counter : Nat
deriving DecidableEq

/-- Pool::new from pool.rs. Asserts num < MAX_POOL_SIZE and num > 0 (none
models the panic). The construction loop runs i over 1..num+2, pushing one
empty slot and the free index i per iteration: resources gets num + 1 empty
slots and the free queue gets indices 1 through num + 1. -/
def Pool.new {α : Type} (num : Nat) : Option (Pool α) :=
  if num < MAX_POOL_SIZE then
    if 0 < num then
      some { resources := List.replicate (num + 1) none,
             free_queue := List.range' 1 (num + 1),
             unique_counter := 0 }
    else none
  else none

/-- Pool::alloc from pool.rs: self.free_queue.pop_front().map(R::with).
Returns the popped handle (none on exhaustion) together with the updated
pool. Nothing else is touched: unique_counter and resources are unchanged. -/
def Pool.alloc {α : Type} (p : Pool α) : Option Handle × Pool α :=
  match p.free_queue with
  | [] => (none, p)
  | i :: rest => (some (Handle.with' i), { p with free_queue := rest })

/-- Pool::destroy from pool.rs (release semantics; the double-free
debug_assert_eq is debug-only and elided). Indexes resources at handle.id(),
panicking (none) when out of bounds; when the slot holds a payload it pushes
the index onto the back of the free queue. The backend release call inside
the if-let is commented out in the source, and the payload is never cleared,
so resources is unchanged in every non-panicking case. -/
def Pool.destroy {α : Type} (p : Pool α) (h : Handle) : Option (Pool α) :=
  match p.resources.get? h.id with
  | none => none
  | some none => some p
  | some (some _) => some { p with free_queue := p.free_queue ++ [h.id] }

/-- Pool::lookup from pool.rs: self.resources[handle.id() as usize].as_ref().
The outer Option models the unchecked Vec indexing (none = panic on an
out-of-bounds id); the inner Option is the slot occupancy the caller sees. -/
def Pool.lookup {α : Type} (p : Pool α) (h : Handle) : Option (Option α) :=
  p.resources.get? h.id

/-- Pool::lookup_mut from pool.rs: identical shape to lookup, returning the
mutable occupant (modelled by its value). -/
def Pool.lookup_mut {α : Type} (p : Pool α) (h : Handle) : Option (Option α) :=
  p.resources.get? h.id

/-- Modelled from the spec: is_valid(id) = (id != 0); the function is part of
the handle interface declared outside the provided sources. -/
def is_valid (id : Nat) : Bool := id != 0

/-- Modelled from the spec: encode(index, unique) = (unique as u32) << 16 |
(index as u32), using SLOT_SHIFT from pool.rs; the final mod 2^32 models the
u32 result width. -/
def encode (index unique : Nat) : Nat :=
  ((unique <<< SLOT_SHIFT) ||| index) % 2 ^ 32

/-- Modelled from the spec: decode(id) = (id & SLOT_MASK, id >> SLOT_SHIFT),
using SLOT_MASK and SLOT_SHIFT from pool.rs. -/
def decode (id : Nat) : Nat × Nat :=
  (id &&& SLOT_MASK, id >>> SLOT_SHIFT)

/-- The pool states reachable through the public interface: a freshly
constructed pool, and the results of alloc and of a non-panicking destroy. -/
inductive Reachable {α : Type} : Pool α → Prop
  | of_new (n : Nat) (p : Pool α) (h : Pool.new n = some p) : Reachable p
  | of_alloc (p : Pool α) (h : Reachable p) : Reachable p.alloc.2
  | of_destroy (p : Pool α) (hdl : Handle) (p' : Pool α) (h : Reachable p)
      (hd : p.destroy hdl = some p') : Reachable p'

/-- Invariant of every reachable pool: no slot ever holds a payload (nothing
in pool.rs writes a Some into resources), and index 0 is never in the free
queue. -/
theorem reachable_inv {α : Type} {p : Pool α} (hr : Reachable p) :
    (∀ r ∈ p.resources, r = none) ∧ (∀ i ∈ p.free_queue, 0 < i) := by
  induction hr with
  | of_new n q hq =>
    simp only [Pool.new] at hq
    split at hq
    · split at hq
      · injection hq with hq
        subst hq
        constructor
        · intro r hrmem
          exact List.eq_of_mem_replicate hrmem
        · intro i hi
          have := (List.mem_range'_1.mp hi).1
          omega
      · cases hq
    · cases hq
  | of_alloc q hq ih =>
    cases hfq : q.free_queue with
    | nil =>
      simpa [Pool.alloc, hfq] using ih
    | cons i rest =>
      constructor
      · intro r hrmem
        exact ih.1 r (by simpa [Pool.alloc, hfq] using hrmem)
      · intro j hj
        refine ih.2 j ?_
        rw [hfq]
        exact List.mem_cons_of_mem _ (by simpa [Pool.alloc, hfq] using hj)
  | of_destroy q hdl q' hq hd ih =>
    rcases hget : q.resources.get? hdl.id with _ | r
    · rw [Pool.destroy, hget] at hd
      cases hd
    · cases r with
      | none =>
        rw [Pool.destroy, hget] at hd
        injection hd with hd
        subst hd
        exact ih
      | some r =>
        exfalso
        have hmem : some r ∈ q.resources := List.get?_mem hget
        exact (Option.some_ne_none r) (ih.1 _ hmem)

/-- Claim C1: the spec says a successful alloc increments unique_counter,
stores it as the slot's tag, sets the slot state to Alloc, and returns a
handle encoding (index, counter). Evaluating the code on the fresh
capacity-1 pool: alloc returns the raw popped index 1 as the whole handle id
(not (1 <<< SLOT_SHIFT) ||| 1 = 65537), leaves unique_counter at 0 instead
of incrementing it to 1, and leaves the slot table untouched (it stores no
tag and no state; the pool has no per-slot tag or state storage at all). -/
theorem alloc_ignores_unique_counter :
    (Pool.new 1 : Option (Pool Nat)).map
        (fun p => (p.alloc.1, p.alloc.2.unique_counter, p.unique_counter + 1,
          p.alloc.2.resources)) =
      some (some ⟨1⟩, 0, 1, [none, none]) ∧
    (0 : Nat) ≠ 1 ∧
    (⟨1⟩ : Handle).id ≠ (1 <<< SLOT_SHIFT) ||| 1 := by
  decide

/-- Claim C2: the spec says lookup and lookup_mut never panic, returning None
for an out-of-bounds index or a tag mismatch. Evaluating the code on the
fresh capacity-1 pool (slot table length 2) with handle id 5: the unchecked
Vec indexing panics (modelled as the outer none), which is not the
non-panicking None result (some none) the claim requires; no tag comparison
exists anywhere in lookup. -/
theorem lookup_panics_out_of_bounds :
    (Pool.new 1 : Option (Pool Nat)).map
        (fun p => (p.lookup ⟨5⟩, p.lookup_mut ⟨5⟩, p.resources.length)) =
      some (none, none, 2) ∧
    (none : Option (Option Nat)) ≠ some none := by
  decide

/-- Claim C3: the spec says Pool::new(n) panics for n = 0 and n ≥ 65536
(which the code's asserts do satisfy) and that a fresh capacity-n pool
yields exactly n successful allocs. Evaluating the code at n = 1: the
construction loop seeds the free queue with the two indices 1 and 2, so the
second alloc also succeeds, returning handle id 2 — an index that is out of
bounds of the 2-entry slot table, where lookup then panics. -/
theorem new_capacity_off_by_one :
    (Pool.new 0 : Option (Pool Nat)) = none ∧
    (Pool.new 65536 : Option (Pool Nat)) = none ∧
    (Pool.new 1 : Option (Pool Nat)).map
        (fun p => (p.alloc.1, p.alloc.2.alloc.1,
          p.alloc.2.alloc.2.lookup ⟨2⟩, p.resources.length)) =
      some (some ⟨1⟩, some ⟨2⟩, none, 2) ∧
    some (⟨2⟩ : Handle) ≠ none := by
  decide

/-- Claim C4: the spec says that after destroy(h) and a further alloc that
reuses h's index, lookup(h) is None while lookup(new_handle) is Some.
Evaluating the code on a pool whose slot 1 is occupied and whose free queue
is [1]: alloc returns h with id 1; destroy(h) re-enqueues index 1 without
clearing the payload; the next alloc reuses index 1; and lookup(h) then
returns Some of the old payload (some (some 7)), not None — the stale handle
still resolves, since handles carry no uniqueness tag. (No state reachable
through the current interface ever has an occupied slot, so the pre-occupied
pool is supplied directly.) -/
theorem stale_handle_lookup_returns_some :
    (let p0 : Pool Nat :=
      { resources := [none, some 7], free_queue := [1], unique_counter := 0 }
     p0.alloc.1 = some ⟨1⟩ ∧
       (p0.alloc.2.destroy ⟨1⟩).map
           (fun p2 => (p2.alloc.1, p2.alloc.2.lookup ⟨1⟩)) =
         some (some ⟨1⟩, some (some 7))) ∧
    some (some 7) ≠ (some none : Option (Option Nat)) := by
  decide

/-- Claim C5: the spec says destroy on an occupied slot releases the native
resources through the backend, clears the payload, and re-enqueues the
index. Evaluating the code on a pool whose slot 1 holds payload 7: destroy
pushes index 1 onto the back of the free queue but the payload is still
there afterwards (the entry remains some 7, not none), and no backend
release happens — that call is commented out in the source. -/
theorem destroy_keeps_payload :
    (let p : Pool Nat :=
      { resources := [none, some 7], free_queue := [], unique_counter := 0 }
     p.destroy ⟨1⟩ =
       some { resources := [none, some 7], free_queue := [1],
              unique_counter := 0 }) ∧
    (some 7 : Option Nat) ≠ none := by
  decide

/-- Claim C6: the spec says slot reuse is FIFO: allocate n handles, destroy
indices 3, 1, 2, and the next three allocs return 3, 1, 2. Evaluating the
code at n = 4: the four allocs return indices 1, 2, 3, 4; destroying 3, 1,
2 re-enqueues nothing, because those slots hold no payload (alloc never
stores one) and destroy only pushes occupied slots; so the next allocs pop
the untouched remainder of the initial free queue — index 5, then
exhaustion (None) twice — instead of 3, 1, 2. -/
theorem freed_indices_not_reused :
    (Pool.new 4 : Option (Pool Nat)).map
        (fun p0 => (p0.alloc.1, p0.alloc.2.alloc.1, p0.alloc.2.alloc.2.alloc.1,
          p0.alloc.2.alloc.2.alloc.2.alloc.1)) =
      some (some ⟨1⟩, some ⟨2⟩, some ⟨3⟩, some ⟨4⟩) ∧
    (Pool.new 4 : Option (Pool Nat)).bind
        (fun p0 =>
          ((p0.alloc.2.alloc.2.alloc.2.alloc.2.destroy ⟨3⟩).bind
            (fun q1 => (q1.destroy ⟨1⟩).bind
              (fun q2 => (q2.destroy ⟨2⟩).map
                (fun q3 => (q3.alloc.1, q3.alloc.2.alloc.1,
                  q3.alloc.2.alloc.2.alloc.1)))))) =
      some (some ⟨5⟩, none, none) ∧
    some (⟨5⟩ : Handle) ≠ some (⟨3⟩ : Handle) := by
  decide

/-- Claim C7: on every reachable pool state, is_valid 0 is false, index 0 is
never in the free queue, and no alloc call returns a handle whose id is 0
(every allocated handle is distinguishable from the invalid-handle
sentinel). The free queue is seeded with indices 1 through num + 1, alloc
only removes from it, and destroy re-enqueues only occupied slot indices —
of which a reachable pool has none. -/
theorem alloc_never_invalid_handle {α : Type} (p : Pool α) (hr : Reachable p) :
    is_valid 0 = false ∧ 0 ∉ p.free_queue ∧
      ∀ h : Handle, p.alloc.1 = some h → h.id ≠ 0 ∧ is_valid h.id = true := by
  have inv := reachable_inv hr
  refine ⟨rfl, ?_, ?_⟩
  · intro h0
    exact absurd (inv.2 0 h0) (by omega)
  · intro h ha
    cases hfq : p.free_queue with
    | nil =>
      rw [Pool.alloc, hfq] at ha
      cases ha
    | cons i rest =>
      rw [Pool.alloc, hfq] at ha
      injection ha with ha
      have hi : 0 < i := inv.2 i (by rw [hfq]; exact List.mem_cons_self i rest)
      have hid : h.id = i := by rw [← ha]; rfl
      constructor
      · omega
      · simp [is_valid, hid]
        omega

/-- Closed instance of alloc_never_invalid_handle on the reachable fresh
pool of capacity 1. -/
theorem alloc_never_invalid_handle_witness :
    is_valid 0 = false ∧
      0 ∉ ({ resources := [none, none], free_queue := [1, 2],
             unique_counter := 0 } : Pool Nat).free_queue :=
  ⟨(alloc_never_invalid_handle
      ({ resources := [none, none], free_queue := [1, 2],
         unique_counter := 0 } : Pool Nat)
      (Reachable.of_new 1 _ (by decide))).1,
   (alloc_never_invalid_handle
      ({ resources := [none, none], free_queue := [1, 2],
         unique_counter := 0 } : Pool Nat)
      (Reachable.of_new 1 _ (by decide))).2.1⟩

/-- Claim C8: handle encoding round-trips: for every index < 65536 and
unique < 65536, decoding (unique << 16) | index with the SLOT_MASK and
SLOT_SHIFT scheme yields back exactly (index, unique). -/
theorem decode_encode_roundtrip (index unique : Nat)
    (hi : index < 65536) (hu : unique < 65536) :
    decode (encode index unique) = (index, unique) := by
  have hi' : index < 2 ^ 16 := by omega
  have e1 : unique <<< SLOT_SHIFT = 2 ^ 16 * unique := by
    rw [show SLOT_SHIFT = 16 from rfl, Nat.shiftLeft_eq, Nat.mul_comm]
  have e2 : (unique <<< SLOT_SHIFT) ||| index = 2 ^ 16 * unique + index := by
    rw [e1, ← Nat.mul_add_lt_is_or hi' unique]
  have hlt : 2 ^ 16 * unique + index < 2 ^ 32 := by
    have h1 : (2 : Nat) ^ 16 = 65536 := by norm_num
    have h2 : (2 : Nat) ^ 32 = 4294967296 := by norm_num
    rw [h1, h2]
    omega
  have eenc : encode index unique = 2 ^ 16 * unique + index := by
    rw [encode, e2, Nat.mod_eq_of_lt hlt]
  have hmask : SLOT_MASK = 2 ^ 16 - 1 := by decide
  rw [eenc, decode, hmask, Nat.and_pow_two_sub_one_eq_mod,
    show SLOT_SHIFT = 16 from rfl, Nat.shiftRight_eq_div_pow]
  have h1 : (2 : Nat) ^ 16 = 65536 := by norm_num
  rw [h1]
  refine Prod.ext ?_ ?_
  · show (65536 * unique + index) % 65536 = index
    omega
  · show (65536 * unique + index) / 65536 = unique
    omega

/-- Closed instance of decode_encode_roundtrip at index 3, unique 5. -/
theorem decode_encode_roundtrip_witness :
    3 < 65536 ∧ 5 < 65536 ∧ decode (encode 3 5) = (3, 5) :=
  ⟨by decide, by decide, decode_encode_roundtrip 3 5 (by decide) (by decide)⟩

/-- Claim C9: no pool operation ever stores a payload: on every reachable
pool state every entry of the resources table is none, and lookup and
lookup_mut return None (some none: an in-bounds non-panicking empty result)
for every handle whose index is in bounds. -/
theorem resources_always_none {α : Type} (p : Pool α) (hr : Reachable p) :
    (∀ r ∈ p.resources, r = none) ∧
      ∀ h : Handle, h.id < p.resources.length →
        p.lookup h = some none ∧ p.lookup_mut h = some none := by
  have inv := reachable_inv hr
  refine ⟨inv.1, ?_⟩
  intro h hb
  have hg : p.resources.get? h.id = some (p.resources.get ⟨h.id, hb⟩) :=
    List.get?_eq_get hb
  have hn : p.resources.get ⟨h.id, hb⟩ = none :=
    inv.1 _ (p.resources.get_mem _ _)
  rw [hn] at hg
  exact ⟨hg, hg⟩

/-- Closed instance of resources_always_none on the reachable fresh pool of
capacity 1, at the in-bounds handle id 1. -/
theorem resources_always_none_witness :
    ({ resources := [none, none], free_queue := [1, 2],
       unique_counter := 0 } : Pool Nat).lookup ⟨1⟩ = some none :=
  ((resources_always_none
      ({ resources := [none, none], free_queue := [1, 2],
         unique_counter := 0 } : Pool Nat)
      (Reachable.of_new 1 _ (by decide))).2 ⟨1⟩ (by decide)).1

/-- Claim C10: destroy on a handle whose in-bounds slot holds no payload
leaves the pool completely unchanged — same resources table, same free
queue, same counter; in particular the index is not re-enqueued. -/
theorem destroy_unoccupied_noop {α : Type} (p : Pool α) (h : Handle)
    (hb : p.resources.get? h.id = some none) :
    p.destroy h = some p := by
  rw [Pool.destroy, hb]

/-- Closed instance of destroy_unoccupied_noop: destroying the unoccupied
in-bounds slot 1 of a concrete pool returns the pool unchanged. -/
theorem destroy_unoccupied_noop_witness :
    ({ resources := [none, none], free_queue := [2],
       unique_counter := 0 } : Pool Nat).destroy ⟨1⟩ =
      some { resources := [none, none], free_queue := [2],
             unique_counter := 0 } :=
  destroy_unoccupied_noop
    ({ resources := [none, none], free_queue := [2],
       unique_counter := 0 } : Pool Nat) ⟨1⟩ (by decide)

end Grafiska
